import Mathlib

/-!
Shallow embedding of the blog application's tRPC blog router
(src/server/api/routers/blogRouter.ts) together with the ImageContainer
component. The Prisma database is modelled as lists of table rows inside a
`Store`; each router procedure becomes a pure function from the store (and
the procedure's input) to a result and an updated store. JavaScript string
operations used by the router (`title.split(" ")`, `join("-")`, `image ||
null`) are embedded by functions with the same semantics.
-/

namespace Blog

/-- A row of the Category table: categories have a unique-by-intent name. -/
structure Category where
  id : Nat
  category_name : String
deriving DecidableEq, Repr

/-- A row of the Tag table; each tag row belongs to one post. -/
structure Tag where
  id : Nat
  tag_name : String
  postId : Nat
deriving DecidableEq, Repr

/-- A row of the Comment table; each comment belongs to one post. -/
structure Comment where
  id : Nat
  postId : Nat
  text : String
deriving DecidableEq, Repr

/-- A row of the Post table, with the fields the router reads and writes. -/
structure Post where
  id : Nat
  title : String
  subtitle : String
  body : String
  image : Option String
  slug : String
  categoryId : Nat
  authorId : String
  createdAt : Nat
deriving DecidableEq, Repr

/-- The relational store behind ctx.prisma: lists of rows plus a fresh-id
counter standing for the id generator of the database. -/
structure Store where
  posts : List Post
  categories : List Category
  tags : List Tag
  comments : List Comment
  nextId : Nat
deriving DecidableEq, Repr

/-- The parsed CreateNewBlogSchema input of createNewBlog: title, subtitle,
body, an optional image and a category name. -/
structure CreateNewBlogInput where
  title : String
  subtitle : String
  body : String
  image : Option String
  category : String
deriving DecidableEq, Repr

/-- JavaScript `s.split(sep)` for a one-character separator, on the list of
characters: splitting the empty string yields [""], and consecutive
separators yield empty pieces, exactly as in JavaScript. -/
def splitOnChar (sep : Char) : List Char → List (List Char)
  | [] => [[]]
  | c :: rest =>
    let r := splitOnChar sep rest
    if c = sep then [] :: r
    else
      match r with
      | [] => [[c]]
      | w :: ws => (c :: w) :: ws

/-- JavaScript `title.split(" ")` as used by createNewBlog. -/
def jsSplitSpace (s : String) : List String :=
  (splitOnChar ' ' s.toList).map fun w => String.mk w

/-- JavaScript `image || null` on the optional image input: the empty string
is falsy and becomes null; any other string is kept. -/
def imageOrNull : Option String → Option String
  | none => none
  | some s => if s = "" then none else some s

/-- Prisma connectOrCreate on the category relation keyed by category_name:
reuse the existing row with that name when there is one, otherwise create a
fresh row with that name. Returns the connected row and the updated store. -/
def connectOrCreateCategory (s : Store) (name : String) : Category × Store :=
  match s.categories.find? (fun c => c.category_name == name) with
  | some c => (c, s)
  | none =>
    let c : Category := ⟨s.nextId, name⟩
    (c, { s with categories := s.categories ++ [c], nextId := s.nextId + 1 })

/-- createNewBlog: split the title on spaces into tagArray, build the slug as
tagArray.join("-") + "-" + Date.now(), connectOrCreate the category, create
the post (with image || null) connected to the session user, and createMany
one tag row per element of tagArray attached to the new post. Returns the
created post and the updated store; `now` stands for Date.now(). -/
def createNewBlog (s : Store) (authorId : String) (input : CreateNewBlogInput)
    (now : Nat) : Post × Store :=
  let tagArray := jsSplitSpace input.title
  let slug := String.intercalate "-" tagArray ++ "-" ++ toString now
  let catStore := connectOrCreateCategory s input.category
  let cat := catStore.1
  let s1 := catStore.2
  let postId := s1.nextId
  let post : Post :=
    { id := postId, title := input.title, subtitle := input.subtitle,
      body := input.body, image := imageOrNull input.image, slug := slug,
      categoryId := cat.id, authorId := authorId, createdAt := now }
  let newTags := tagArray.enum.map fun it => Tag.mk (postId + 1 + it.1) it.2 postId
  (post,
    { s1 with
      posts := s1.posts ++ [post],
      tags := s1.tags ++ newTags,
      nextId := postId + 1 + tagArray.length })

/-- The descending createdAt ordering used by the orderBy clauses. -/
def createdDesc (a b : Post) : Prop := b.createdAt ≤ a.createdAt

instance : DecidableRel createdDesc := fun a b => Nat.decLe b.createdAt a.createdAt

instance : IsTotal Post createdDesc :=
  ⟨fun a b => (Nat.le_total b.createdAt a.createdAt).elim Or.inl Or.inr⟩

instance : IsTrans Post createdDesc :=
  ⟨fun _ _ _ hab hbc => Nat.le_trans hbc hab⟩

/-- Prisma `orderBy: { createdAt: "desc" }`: sort the rows so createdAt is
non-increasing. -/
def sortByCreatedAtDesc (l : List Post) : List Post :=
  l.insertionSort createdDesc

/-- getAllBlogs: every post, ordered by createdAt descending, no limit. -/
def getAllBlogs (s : Store) : List Post :=
  sortByCreatedAtDesc s.posts

/-- The category_name of a post's category row, through the categoryId
relation, as the where clause of getBlogsByCategory reads it. -/
def categoryNameOf (s : Store) (p : Post) : Option String :=
  (s.categories.find? (fun c => c.id == p.categoryId)).map Category.category_name

/-- getBlogsByCategory: the posts whose category has the given name, ordered
by createdAt descending, limited by take to the first 10. -/
def getBlogsByCategory (s : Store) (name : String) : List Post :=
  (sortByCreatedAtDesc (s.posts.filter fun p => categoryNameOf s p == some name)).take 10

/-- getBlogById: the first post with the given id (prisma findFirst). -/
def getBlogById (s : Store) (id : Nat) : Option Post :=
  s.posts.find? fun p => p.id == id

/-- getBlogByUserId: every post whose authorId is the given user id, ordered
by createdAt descending, no limit. -/
def getBlogByUserId (s : Store) (userId : String) : List Post :=
  sortByCreatedAtDesc (s.posts.filter fun p => p.authorId == userId)

/-- Errors a blog procedure can surface: the ORM's record-not-found throw
(Prisma P2025) and the router's own TRPCError BAD_REQUEST. -/
inductive BlogError where
  | ormRecordNotFound
  | trpcBadRequest
deriving DecidableEq, Repr

/-- Embeds prisma.post.delete with include comment. When no post has the
given id the ORM throws record-not-found; otherwise it returns the deleted
record (never null) and removes the post. Modelled from the spec: the Prisma
schema file defining the referential action of the comment relation is not
under src/; per the spec's cascading deletes, the comments whose postId is
the deleted post's id are removed with it. -/
def prismaPostDelete (s : Store) (id : Nat) :
    Except BlogError (Option Post × Store) :=
  match s.posts.find? (fun p => p.id == id) with
  | none => .error .ormRecordNotFound
  | some p =>
    .ok (some p,
      { s with
        posts := s.posts.filter fun q => q.id != id,
        comments := s.comments.filter fun c => c.postId != id })

/-- deleteBlogByBlogId: delete the post via the ORM; if the awaited value is
null throw TRPCError BAD_REQUEST; otherwise return status 201 with the
success message. -/
def deleteBlogByBlogId (s : Store) (id : Nat) :
    Except BlogError (Nat × String) × Store :=
  match prismaPostDelete s id with
  | .error e => (.error e, s)
  | .ok (deleteBlog, s1) =>
    match deleteBlog with
    | none => (.error .trpcBadRequest, s1)
    | some _ => (.ok (201, "BLOG DELETED SUCCESSFULLY"), s1)

/-- Whether a procedure of the router is declared with protectedProcedure or
publicProcedure. -/
inductive Access where
  | protectedProc
  | publicProc
deriving DecidableEq, Repr

/-- One procedure entry of the createTRPCRouter call: its key and its access
declaration. -/
structure Procedure where
  name : String
  access : Access
deriving DecidableEq, Repr

/-- The blogRouter object: the seven procedures declared in
src/server/api/routers/blogRouter.ts, in source order, each built from
protectedProcedure. -/
def blogRouter : List Procedure :=
  [⟨"createNewBlog", .protectedProc⟩,
   ⟨"getAllBlogs", .protectedProc⟩,
   ⟨"getBlogsByCategory", .protectedProc⟩,
   ⟨"getBlogById", .protectedProc⟩,
   ⟨"getBlogByUserId", .protectedProc⟩,
   ⟨"updateBlogById", .protectedProc⟩,
   ⟨"deleteBlogByBlogId", .protectedProc⟩]

/-- Modelled from the spec: protectedProcedure is defined in
src/server/api/trpc.ts, which is not under src/; per the spec's
authenticated user sessions and route protection, a protected procedure
runs its handler only when a session exists and otherwise rejects the
call, yielding none here. -/
def runProtected {α : Type} (session : Option String) (k : String → α) : Option α :=
  match session with
  | none => none
  | some userId => some (k userId)

/-- The fixed fallback avatar URL of ImageContainer. -/
def fallbackAvatarUrl : String :=
  "https://api.dicebear.com/6.x/adventurer-neutral/svg?seed=Tigger"

/-- What ImageContainer renders inside the figure: the plain img element of
the error branch, or the next/image element of the normal branch. -/
inductive RenderedImage where
  | rawImg (src : String)
  | nextImage (src : String)
deriving DecidableEq, Repr

/-- The src URL of the rendered element. -/
def RenderedImage.src : RenderedImage → String
  | rawImg s => s
  | nextImage s => s

/-- ImageContainer's render as a function of the image prop and the
imageLoadingError state: on error render the plain img with the fallback
URL; otherwise render next/image with `image || fallback`, the empty string
being falsy. -/
def renderImageContainer (image : String) (imageLoadingError : Bool) : RenderedImage :=
  if imageLoadingError then .rawImg fallbackAvatarUrl
  else .nextImage (if image = "" then fallbackAvatarUrl else image)

/-- The onError handler: setImageLoadingError(true), whatever the state was. -/
def handleImageLoadingError (_ : Bool) : Bool := true

theorem connectOrCreateCategory_tags (s : Store) (n : String) :
    (connectOrCreateCategory s n).2.tags = s.tags := by
  unfold connectOrCreateCategory
  cases s.categories.find? (fun c => c.category_name == n) <;> rfl

theorem connectOrCreateCategory_posts (s : Store) (n : String) :
    (connectOrCreateCategory s n).2.posts = s.posts := by
  unfold connectOrCreateCategory
  cases s.categories.find? (fun c => c.category_name == n) <;> rfl

theorem sortByCreatedAtDesc_perm (l : List Post) : (sortByCreatedAtDesc l).Perm l :=
  List.perm_insertionSort createdDesc l

theorem sortByCreatedAtDesc_sorted (l : List Post) :
    (sortByCreatedAtDesc l).Pairwise createdDesc :=
  List.sorted_insertionSort createdDesc l

/-- C1: the slug stored on the post created by createNewBlog is the title
split on spaces joined with "-", followed by "-" and the timestamp; the
created post is stored with that slug, and the slug depends on the title
and the timestamp only — in particular it is computed without consulting
the store, so no uniqueness check against existing slugs takes place. -/
theorem createNewBlog_slug_naive (s : Store) (a : String)
    (input : CreateNewBlogInput) (now : Nat) :
    (createNewBlog s a input now).1.slug
      = String.intercalate "-" (jsSplitSpace input.title) ++ "-" ++ toString now
    ∧ (createNewBlog s a input now).1 ∈ (createNewBlog s a input now).2.posts
    ∧ ∀ (s' : Store) (a' : String) (input' : CreateNewBlogInput),
        input'.title = input.title →
        (createNewBlog s' a' input' now).1.slug
          = (createNewBlog s a input now).1.slug := by
  refine ⟨rfl, ?_, ?_⟩
  · show (createNewBlog s a input now).1
      ∈ (connectOrCreateCategory s input.category).2.posts ++ [(createNewBlog s a input now).1]
    exact List.mem_append.mpr (Or.inr (List.mem_singleton.mpr rfl))
  · intro s' a' input' h
    show String.intercalate "-" (jsSplitSpace input'.title) ++ "-" ++ toString now
      = String.intercalate "-" (jsSplitSpace input.title) ++ "-" ++ toString now
    rw [h]

/-- C1 witness: at the timestamp 5 the title "hello world" yields the slug
"hello-world-5", and a store already holding a post with this very slug
produces the same slug again. -/
theorem createNewBlog_slug_naive_witness :
    (createNewBlog
        ⟨[⟨0, "t", "s", "b", none, "hello-world-5", 0, "u", 0⟩], [], [], [], 1⟩
        "u2" ⟨"hello world", "s2", "b2", none, "Life"⟩ 5).1.slug
      = (createNewBlog ⟨[], [], [], [], 0⟩ "u1"
          ⟨"hello world", "s1", "b1", some "img", "Tech"⟩ 5).1.slug
    ∧ (createNewBlog ⟨[], [], [], [], 0⟩ "u1"
        ⟨"hello world", "s1", "b1", some "img", "Tech"⟩ 5).1.slug
      = "hello-world-5" :=
  ⟨(createNewBlog_slug_naive ⟨[], [], [], [], 0⟩ "u1"
      ⟨"hello world", "s1", "b1", some "img", "Tech"⟩ 5).2.2
      ⟨[⟨0, "t", "s", "b", none, "hello-world-5", 0, "u", 0⟩], [], [], [], 1⟩
      "u2" ⟨"hello world", "s2", "b2", none, "Life"⟩ rfl,
   by decide⟩

/-- C5: the blog router exposes exactly the seven procedures createNewBlog,
getAllBlogs, getBlogsByCategory, getBlogById, getBlogByUserId,
updateBlogById and deleteBlogByBlogId, and no other. -/
theorem blogRouter_procedures :
    blogRouter.map Procedure.name
      = ["createNewBlog", "getAllBlogs", "getBlogsByCategory", "getBlogById",
         "getBlogByUserId", "updateBlogById", "deleteBlogByBlogId"] := rfl

/-- C6: every procedure of the blog router is declared with
protectedProcedure, and a protected procedure invoked without a session
never runs its handler. -/
theorem blogRouter_all_protected :
    (∀ p ∈ blogRouter, p.access = Access.protectedProc)
    ∧ ∀ (α : Type) (k : String → α), runProtected none k = (none : Option α) := by
  exact ⟨by decide, fun α k => rfl⟩

/-- C6 witness: the createNewBlog entry is in the router and is protected. -/
theorem blogRouter_all_protected_witness :
    Procedure.mk "createNewBlog" Access.protectedProc ∈ blogRouter
    ∧ (Procedure.mk "createNewBlog" Access.protectedProc).access
        = Access.protectedProc :=
  ⟨by decide,
   blogRouter_all_protected.1 (Procedure.mk "createNewBlog" Access.protectedProc)
     (by decide)⟩

/-- C7: ImageContainer renders the fallback avatar URL whenever the error
state is set or the image prop is the empty (falsy) string, and the given
image URL otherwise; after onError fires the fallback is rendered. -/
theorem renderImageContainer_fallback (image : String) (err : Bool) :
    (renderImageContainer image err).src
      = (if err = true ∨ image = "" then fallbackAvatarUrl else image)
    ∧ (renderImageContainer image (handleImageLoadingError err)).src
        = fallbackAvatarUrl := by
  refine ⟨?_, rfl⟩
  cases err <;> by_cases h : image = "" <;>
    simp [renderImageContainer, RenderedImage.src, h]

/-- C10: createNewBlog stores image = null when the optional image input is
absent or the empty string, and stores the given string unchanged when it
is non-empty. -/
theorem createNewBlog_image_normalized (s : Store) (a : String)
    (input : CreateNewBlogInput) (now : Nat) :
    ((input.image = none ∨ input.image = some "") →
       (createNewBlog s a input now).1.image = none)
    ∧ (∀ str : String, input.image = some str → str ≠ "" →
       (createNewBlog s a input now).1.image = some str) := by
  have hi : (createNewBlog s a input now).1.image = imageOrNull input.image := rfl
  constructor
  · rintro (h | h) <;> rw [hi, h] <;> simp [imageOrNull]
  · intro str h hne
    rw [hi, h]
    simp [imageOrNull, hne]

/-- C10 witness: an empty-string image is stored as null, and the non-empty
image "pic" is stored unchanged. -/
theorem createNewBlog_image_normalized_witness :
    (createNewBlog ⟨[], [], [], [], 0⟩ "u" ⟨"t", "s", "b", some "", "Tech"⟩ 3).1.image
      = none
    ∧ (createNewBlog ⟨[], [], [], [], 0⟩ "u" ⟨"t", "s", "b", some "pic", "Tech"⟩ 3).1.image
      = some "pic" :=
  ⟨(createNewBlog_image_normalized ⟨[], [], [], [], 0⟩ "u"
      ⟨"t", "s", "b", some "", "Tech"⟩ 3).1 (Or.inr rfl),
   (createNewBlog_image_normalized ⟨[], [], [], [], 0⟩ "u"
      ⟨"t", "s", "b", some "pic", "Tech"⟩ 3).2 "pic" rfl (by decide)⟩

/-- C3: createNewBlog writes the category with upsert semantics: when a
category row with the given name exists, the category table is unchanged
and the post is connected to such a row; when none exists, exactly one row
with the name is created; in both cases the number of rows carrying the
name afterwards is one when it was zero and unchanged otherwise, so this
operation never creates a duplicate category row. -/
theorem createNewBlog_category_upsert (s : Store) (a : String)
    (input : CreateNewBlogInput) (now : Nat) :
    ((∃ cat ∈ s.categories, cat.category_name = input.category) →
        (createNewBlog s a input now).2.categories = s.categories
        ∧ ∃ cat ∈ s.categories, cat.category_name = input.category
            ∧ (createNewBlog s a input now).1.categoryId = cat.id)
    ∧ ((∀ cat ∈ s.categories, cat.category_name ≠ input.category) →
        (createNewBlog s a input now).2.categories
          = s.categories ++ [⟨s.nextId, input.category⟩])
    ∧ ((createNewBlog s a input now).2.categories.filter
          (fun c => c.category_name == input.category)).length
        = (if (s.categories.filter (fun c => c.category_name == input.category)).length = 0
           then 1
           else (s.categories.filter (fun c => c.category_name == input.category)).length) := by
  have hcat : (createNewBlog s a input now).2.categories
      = (connectOrCreateCategory s input.category).2.categories := rfl
  have hid : (createNewBlog s a input now).1.categoryId
      = (connectOrCreateCategory s input.category).1.id := rfl
  cases heq : s.categories.find? (fun c => c.category_name == input.category) with
  | some c =>
    have hmem : c ∈ s.categories := List.mem_of_find?_eq_some heq
    have hname : c.category_name = input.category := by
      have := List.find?_some heq
      exact beq_iff_eq.mp this
    have hred : connectOrCreateCategory s input.category = (c, s) := by
      unfold connectOrCreateCategory
      rw [heq]
    refine ⟨fun _ => ⟨by rw [hcat, hred], c, hmem, hname, by rw [hid, hred]⟩,
      fun hall => absurd hname (hall c hmem), ?_⟩
    rw [hcat, hred]
    have hpos : 0 < (s.categories.filter (fun c => c.category_name == input.category)).length := by
      have : c ∈ s.categories.filter (fun c => c.category_name == input.category) :=
        List.mem_filter.mpr ⟨hmem, beq_iff_eq.mpr hname⟩
      exact List.length_pos.mpr (fun hnil => by simp [hnil] at this)
    rw [if_neg (Nat.ne_of_gt hpos)]
  | none =>
    have hred : connectOrCreateCategory s input.category
        = (⟨s.nextId, input.category⟩,
           { s with categories := s.categories ++ [⟨s.nextId, input.category⟩],
                    nextId := s.nextId + 1 }) := by
      unfold connectOrCreateCategory
      rw [heq]
    have hnil : s.categories.filter (fun c => c.category_name == input.category) = [] := by
      rw [List.filter_eq_nil_iff]
      exact List.find?_eq_none.mp heq
    refine ⟨?_, fun _ => by rw [hcat, hred], ?_⟩
    · rintro ⟨cat, hmem, hname⟩
      have := List.find?_eq_none.mp heq cat hmem
      exact absurd (beq_iff_eq.mpr hname) this
    · rw [hcat, hred]
      simp [List.filter_append, hnil]

/-- C3 witness: on a store holding the category "Tech" the table is
unchanged and the post connects to it, and on the empty store exactly one
"Tech" row is created. -/
theorem createNewBlog_category_upsert_witness :
    (createNewBlog ⟨[], [⟨0, "Tech"⟩], [], [], 1⟩ "u" ⟨"t", "s", "b", none, "Tech"⟩ 3).2.categories
        = (⟨[], [⟨0, "Tech"⟩], [], [], 1⟩ : Store).categories
    ∧ (createNewBlog ⟨[], [], [], [], 0⟩ "u" ⟨"t", "s", "b", none, "Tech"⟩ 3).2.categories
        = [] ++ [⟨0, "Tech"⟩] :=
  ⟨((createNewBlog_category_upsert ⟨[], [⟨0, "Tech"⟩], [], [], 1⟩ "u"
      ⟨"t", "s", "b", none, "Tech"⟩ 3).1 ⟨⟨0, "Tech"⟩, by decide, by decide⟩).1,
   (createNewBlog_category_upsert ⟨[], [], [], [], 0⟩ "u"
      ⟨"t", "s", "b", none, "Tech"⟩ 3).2.1 (by decide)⟩

/-- C4 counterexample: with a tag row named "hello" already in the store,
createNewBlog on the title "hello" creates a second tag row with the same
tag_name instead of reusing the existing row, so tags are not written with
upsert semantics. -/
theorem createNewBlog_tag_not_upsert_cx :
    ((createNewBlog ⟨[], [], [⟨0, "hello", 7⟩], [], 1⟩ "u"
        ⟨"hello", "s", "b", none, "Tech"⟩ 5).2.tags.filter
        (fun t => t.tag_name == "hello")).length = 2
    ∧ ((⟨[], [], [⟨0, "hello", 7⟩], [], 1⟩ : Store).tags.filter
        (fun t => t.tag_name == "hello")).length = 1 := by
  exact ⟨by decide, by decide⟩

/-- C4 amended: each element of the title split on spaces is written as a
freshly created tag row attached to the new post via createMany — the tag
names are appended to the existing table unconditionally, existing rows are
never reused, and every newly added row belongs to the new post. -/
theorem createNewBlog_tags_createMany (s : Store) (a : String)
    (input : CreateNewBlogInput) (now : Nat) :
    (createNewBlog s a input now).2.tags.map Tag.tag_name
      = s.tags.map Tag.tag_name ++ jsSplitSpace input.title
    ∧ ∀ t ∈ (createNewBlog s a input now).2.tags, t ∉ s.tags →
        t.postId = (createNewBlog s a input now).1.id := by
  have htags : (createNewBlog s a input now).2.tags
      = (connectOrCreateCategory s input.category).2.tags
        ++ (jsSplitSpace input.title).enum.map
            (fun it => Tag.mk ((connectOrCreateCategory s input.category).2.nextId + 1 + it.1)
              it.2 (connectOrCreateCategory s input.category).2.nextId) := rfl
  have hpres := connectOrCreateCategory_tags s input.category
  constructor
  · rw [htags, hpres, List.map_append, List.map_map]
    congr 1
    have : (Tag.tag_name ∘ fun it : Nat × String =>
        Tag.mk ((connectOrCreateCategory s input.category).2.nextId + 1 + it.1)
          it.2 (connectOrCreateCategory s input.category).2.nextId)
        = Prod.snd := rfl
    rw [this, List.enum_map_snd]
  · intro t hmem hnot
    rw [htags, hpres] at hmem
    rcases List.mem_append.mp hmem with h | h
    · exact absurd h hnot
    · rcases List.mem_map.mp h with ⟨it, _, rfl⟩
      rfl

/-- C4 amended witness: in the concrete run of the counterexample the newly
added tag row carries the new post's id. -/
theorem createNewBlog_tags_createMany_witness :
    (Tag.mk 3 "hello" 2).postId
      = (createNewBlog ⟨[], [], [⟨0, "hello", 7⟩], [], 1⟩ "u"
          ⟨"hello", "s", "b", none, "Tech"⟩ 5).1.id :=
  (createNewBlog_tags_createMany ⟨[], [], [⟨0, "hello", 7⟩], [], 1⟩ "u"
      ⟨"hello", "s", "b", none, "Tech"⟩ 5).2 (Tag.mk 3 "hello" 2)
    (by decide) (by decide)

/-- C2: when the given id names an existing post, deleteBlogByBlogId removes
that post and every comment whose postId is that id from the store, keeps
every other post and comment, and reports status 201 with the success
message; the delete cascades to the post's comments. -/
theorem deleteBlogByBlogId_cascades (s : Store) (id : Nat)
    (h : ∃ p ∈ s.posts, p.id = id) :
    (∀ q : Post, q ∈ (deleteBlogByBlogId s id).2.posts ↔ (q ∈ s.posts ∧ q.id ≠ id))
    ∧ (∀ c : Comment,
        c ∈ (deleteBlogByBlogId s id).2.comments ↔ (c ∈ s.comments ∧ c.postId ≠ id))
    ∧ (deleteBlogByBlogId s id).1 = .ok (201, "BLOG DELETED SUCCESSFULLY") := by
  obtain ⟨p, hmem, hid⟩ := h
  have hsome : (s.posts.find? (fun q => q.id == id)).isSome := by
    rw [List.find?_isSome]
    exact ⟨p, hmem, beq_iff_eq.mpr hid⟩
  obtain ⟨p0, heq⟩ := Option.isSome_iff_exists.mp hsome
  refine ⟨?_, ?_, ?_⟩
  · intro q
    simp [deleteBlogByBlogId, prismaPostDelete, heq, List.mem_filter, bne_iff_ne]
  · intro c
    simp [deleteBlogByBlogId, prismaPostDelete, heq, List.mem_filter, bne_iff_ne]
  · simp [deleteBlogByBlogId, prismaPostDelete, heq]

/-- C2 witness: deleting post 1 from a store with posts 1 and 2 and comments
on both removes post 1's comment, keeps post 2's comment, and returns 201. -/
theorem deleteBlogByBlogId_cascades_witness :
    (Comment.mk 10 1 "on1"
        ∈ (deleteBlogByBlogId
            ⟨[⟨1, "t1", "s", "b", none, "sl1", 0, "u", 0⟩,
              ⟨2, "t2", "s", "b", none, "sl2", 0, "u", 1⟩], [],
              [], [⟨10, 1, "on1"⟩, ⟨11, 2, "on2"⟩], 12⟩ 1).2.comments
      ↔ (Comment.mk 10 1 "on1" ∈
            [Comment.mk 10 1 "on1", Comment.mk 11 2 "on2"] ∧ (1 : Nat) ≠ 1))
    ∧ (deleteBlogByBlogId
          ⟨[⟨1, "t1", "s", "b", none, "sl1", 0, "u", 0⟩,
            ⟨2, "t2", "s", "b", none, "sl2", 0, "u", 1⟩], [],
            [], [⟨10, 1, "on1"⟩, ⟨11, 2, "on2"⟩], 12⟩ 1).1
        = .ok (201, "BLOG DELETED SUCCESSFULLY") :=
  ⟨(deleteBlogByBlogId_cascades
      ⟨[⟨1, "t1", "s", "b", none, "sl1", 0, "u", 0⟩,
        ⟨2, "t2", "s", "b", none, "sl2", 0, "u", 1⟩], [],
        [], [⟨10, 1, "on1"⟩, ⟨11, 2, "on2"⟩], 12⟩ 1
      ⟨⟨1, "t1", "s", "b", none, "sl1", 0, "u", 0⟩, by decide, rfl⟩).2.1
      (Comment.mk 10 1 "on1"),
   (deleteBlogByBlogId_cascades
      ⟨[⟨1, "t1", "s", "b", none, "sl1", 0, "u", 0⟩,
        ⟨2, "t2", "s", "b", none, "sl2", 0, "u", 1⟩], [],
        [], [⟨10, 1, "on1"⟩, ⟨11, 2, "on2"⟩], 12⟩ 1
      ⟨⟨1, "t1", "s", "b", none, "sl1", 0, "u", 0⟩, by decide, rfl⟩).2.2⟩

/-- C8: the explicit BAD_REQUEST guard of deleteBlogByBlogId never fires:
for every store and id the procedure either surfaces the ORM's
record-not-found error (exactly when no post has the id, leaving the store
unchanged) or returns status 201 with the success message (when a post has
the id); a TRPCError BAD_REQUEST is never produced. -/
theorem deleteBlogByBlogId_guard_unreachable (s : Store) (id : Nat) :
    (deleteBlogByBlogId s id).1 ≠ .error .trpcBadRequest
    ∧ ((∀ p ∈ s.posts, p.id ≠ id) →
        deleteBlogByBlogId s id = (.error .ormRecordNotFound, s))
    ∧ ((∃ p ∈ s.posts, p.id = id) →
        (deleteBlogByBlogId s id).1 = .ok (201, "BLOG DELETED SUCCESSFULLY")) := by
  cases heq : s.posts.find? (fun q => q.id == id) with
  | none =>
    refine ⟨?_, fun _ => ?_, ?_⟩
    · simp [deleteBlogByBlogId, prismaPostDelete, heq]
    · simp [deleteBlogByBlogId, prismaPostDelete, heq]
    · rintro ⟨p, hmem, hid⟩
      have := List.find?_eq_none.mp heq p hmem
      exact absurd (beq_iff_eq.mpr hid) this
  | some p0 =>
    refine ⟨?_, ?_, fun _ => ?_⟩
    · simp [deleteBlogByBlogId, prismaPostDelete, heq]
    · intro hall
      have hmem : p0 ∈ s.posts := List.mem_of_find?_eq_some heq
      have hb := List.find?_some heq
      have hid : p0.id = id := beq_iff_eq.mp hb
      exact absurd hid (hall p0 hmem)
    · simp [deleteBlogByBlogId, prismaPostDelete, heq]

/-- C8 witness: on the empty store the ORM error surfaces for id 1, and on a
store holding post 1 the delete returns 201; neither is BAD_REQUEST. -/
theorem deleteBlogByBlogId_guard_unreachable_witness :
    deleteBlogByBlogId (⟨[], [], [], [], 0⟩ : Store) 1
        = (.error .ormRecordNotFound, (⟨[], [], [], [], 0⟩ : Store))
    ∧ (deleteBlogByBlogId
          ⟨[⟨1, "t", "s", "b", none, "sl", 0, "u", 0⟩], [], [], [], 2⟩ 1).1
        = .ok (201, "BLOG DELETED SUCCESSFULLY")
    ∧ (deleteBlogByBlogId (⟨[], [], [], [], 0⟩ : Store) 1).1
        ≠ .error .trpcBadRequest :=
  ⟨(deleteBlogByBlogId_guard_unreachable ⟨[], [], [], [], 0⟩ 1).2.1 (by decide),
   (deleteBlogByBlogId_guard_unreachable
      ⟨[⟨1, "t", "s", "b", none, "sl", 0, "u", 0⟩], [], [], [], 2⟩ 1).2.2
      ⟨⟨1, "t", "s", "b", none, "sl", 0, "u", 0⟩, by decide, rfl⟩,
   (deleteBlogByBlogId_guard_unreachable ⟨[], [], [], [], 0⟩ 1).1⟩

/-- C9: getBlogsByCategory returns at most 10 posts — exactly min 10 (number
of matching posts), so all matching posts when there are at most 10 of them
and precisely 10 otherwise — ordered by createdAt descending, all of them
posts of the store whose category carries the given name, and they are the
most recent such posts: any matching post left out is no newer than any
post returned. getAllBlogs returns every post of the store and
getBlogByUserId every post of the given author, both with no limit and in
the same descending createdAt order. -/
theorem blogQueries_order_and_limit (s : Store) (cname : String) (userId : String) :
    (getBlogsByCategory s cname).length ≤ 10
    ∧ (getBlogsByCategory s cname).length
        = min 10 (s.posts.filter fun p => categoryNameOf s p == some cname).length
    ∧ (getBlogsByCategory s cname).Pairwise createdDesc
    ∧ (∀ p ∈ getBlogsByCategory s cname,
        p ∈ s.posts ∧ categoryNameOf s p = some cname)
    ∧ (∀ p ∈ getBlogsByCategory s cname, ∀ q ∈ s.posts,
        categoryNameOf s q = some cname → q ∉ getBlogsByCategory s cname →
        q.createdAt ≤ p.createdAt)
    ∧ (getAllBlogs s).Perm s.posts
    ∧ (getAllBlogs s).Pairwise createdDesc
    ∧ (getBlogByUserId s userId).Perm (s.posts.filter fun p => p.authorId == userId)
    ∧ (getBlogByUserId s userId).Pairwise createdDesc := by
  have hsorted := sortByCreatedAtDesc_sorted
      (s.posts.filter fun p => categoryNameOf s p == some cname)
  have hperm := sortByCreatedAtDesc_perm
      (s.posts.filter fun p => categoryNameOf s p == some cname)
  refine ⟨?_, ?_, ?_, ?_, ?_, sortByCreatedAtDesc_perm s.posts,
    sortByCreatedAtDesc_sorted s.posts, sortByCreatedAtDesc_perm _,
    sortByCreatedAtDesc_sorted _⟩
  · exact List.length_take_le 10 _
  · show ((sortByCreatedAtDesc
        (s.posts.filter fun p => categoryNameOf s p == some cname)).take 10).length = _
    rw [List.length_take, hperm.length_eq]
  · exact List.Pairwise.sublist (List.take_sublist 10 _) hsorted
  · intro p hp
    have hp1 : p ∈ (sortByCreatedAtDesc
        (s.posts.filter fun p => categoryNameOf s p == some cname)).take 10 := hp
    have hp2 := List.Sublist.mem hp1 (List.take_sublist 10 _)
    have hp3 := hperm.mem_iff.mp hp2
    obtain ⟨hmem, hbeq⟩ := List.mem_filter.mp hp3
    exact ⟨hmem, beq_iff_eq.mp hbeq⟩
  · intro p hp q hq hqc hqn
    have hqF : q ∈ s.posts.filter (fun p => categoryNameOf s p == some cname) :=
      List.mem_filter.mpr ⟨hq, beq_iff_eq.mpr hqc⟩
    have hqL : q ∈ sortByCreatedAtDesc
        (s.posts.filter fun p => categoryNameOf s p == some cname) :=
      hperm.mem_iff.mpr hqF
    have hsplit := List.take_append_drop 10 (sortByCreatedAtDesc
        (s.posts.filter fun p => categoryNameOf s p == some cname))
    have hpw : ((sortByCreatedAtDesc
          (s.posts.filter fun p => categoryNameOf s p == some cname)).take 10
        ++ (sortByCreatedAtDesc
          (s.posts.filter fun p => categoryNameOf s p == some cname)).drop 10).Pairwise
          createdDesc := by
      rw [hsplit]
      exact hsorted
    have hcross := (List.pairwise_append.mp hpw).2.2
    have hqL2 : q ∈ (sortByCreatedAtDesc
          (s.posts.filter fun p => categoryNameOf s p == some cname)).take 10
        ++ (sortByCreatedAtDesc
          (s.posts.filter fun p => categoryNameOf s p == some cname)).drop 10 := by
      rw [hsplit]
      exact hqL
    rcases List.mem_append.mp hqL2 with h | h
    · exact absurd h hqn
    · exact hcross p hp q h

/-- C9 witness: in a store with two "Tech" posts the more recent one is
returned by getBlogsByCategory, belongs to the store, and carries the
"Tech" category; the result length is min 10 2, i.e. both posts. -/
theorem blogQueries_order_and_limit_witness :
    ((⟨1, "A", "sa", "ba", none, "a", 0, "u1", 10⟩ : Post)
        ∈ (⟨[⟨1, "A", "sa", "ba", none, "a", 0, "u1", 10⟩,
              ⟨2, "B", "sb", "bb", none, "b", 0, "u2", 5⟩],
            [⟨0, "Tech"⟩], [], [], 3⟩ : Store).posts
    ∧ categoryNameOf
        ⟨[⟨1, "A", "sa", "ba", none, "a", 0, "u1", 10⟩,
          ⟨2, "B", "sb", "bb", none, "b", 0, "u2", 5⟩],
          [⟨0, "Tech"⟩], [], [], 3⟩
        ⟨1, "A", "sa", "ba", none, "a", 0, "u1", 10⟩ = some "Tech")
    ∧ (getBlogsByCategory
          ⟨[⟨1, "A", "sa", "ba", none, "a", 0, "u1", 10⟩,
            ⟨2, "B", "sb", "bb", none, "b", 0, "u2", 5⟩],
            [⟨0, "Tech"⟩], [], [], 3⟩ "Tech").length
        = min 10 ((⟨[⟨1, "A", "sa", "ba", none, "a", 0, "u1", 10⟩,
            ⟨2, "B", "sb", "bb", none, "b", 0, "u2", 5⟩],
            [⟨0, "Tech"⟩], [], [], 3⟩ : Store).posts.filter fun p =>
              categoryNameOf
                ⟨[⟨1, "A", "sa", "ba", none, "a", 0, "u1", 10⟩,
                  ⟨2, "B", "sb", "bb", none, "b", 0, "u2", 5⟩],
                  [⟨0, "Tech"⟩], [], [], 3⟩ p == some "Tech").length :=
  ⟨(blogQueries_order_and_limit
      ⟨[⟨1, "A", "sa", "ba", none, "a", 0, "u1", 10⟩,
        ⟨2, "B", "sb", "bb", none, "b", 0, "u2", 5⟩],
        [⟨0, "Tech"⟩], [], [], 3⟩ "Tech" "u1").2.2.2.1
    ⟨1, "A", "sa", "ba", none, "a", 0, "u1", 10⟩ (by decide),
   (blogQueries_order_and_limit
      ⟨[⟨1, "A", "sa", "ba", none, "a", 0, "u1", 10⟩,
        ⟨2, "B", "sb", "bb", none, "b", 0, "u2", 5⟩],
        [⟨0, "Tech"⟩], [], [], 3⟩ "Tech" "u1").2.1⟩

end Blog
